import Mathlib

/-!
Shallow embedding of the ownership core of the cidre binding layer:
`src/cidre/src/cf/runtime.rs` (opaque handles, retain/release, type-identity
narrowing, the subtype declaration facility), `src/cidre/src/lib.rs`
(the option-flag bit-set facility) and `src/cidre/src/cm/sample_buffer.rs`
(creation calls, data readiness, key-frame query, packet descriptions).

The foreign runtime (CoreFoundation / CoreMedia) is opaque to the code, so it
is modelled as explicit state: a reference count and a type tag per address,
and an event trace recording every foreign retain/release call the layer makes.
-/

namespace Cidre

/-- A foreign object address (`NonNull<c_void>` in the source; non-nullness is
carried separately as a proposition where it matters). -/
abbrev Addr := Nat

/-- `cf::TypeId` (`CFTypeID`), a pointer-sized runtime type tag. -/
abbrev TypeId := Nat

/-- `os::Status`: a signed integer status code, zero meaning success. -/
abbrev Status := Int

/-- Observable foreign refcount calls made by the layer. -/
inductive FfiEvent where
  | retainEv (addr : Addr)
  | releaseEv (addr : Addr)
deriving DecidableEq, Repr

/-- State of the foreign CoreFoundation runtime: per-address reference counts
and type tags, plus the runtime-chosen tags for the Number and String
subtypes (`cf::Number::type_id()` / `cf::String::type_id()`, which wrap the
foreign calls `CFNumberGetTypeID` / `CFStringGetTypeID`). -/
structure CFRt where
  refCount : Addr → Nat
  typeOf : Addr → TypeId
  numberTypeId : TypeId
  stringTypeId : TypeId

/-- Foreign `CFRetain`: increments the refcount of the given address and hands
back the same address as an owned reference. -/
def cfRetain (s : CFRt) (a : Addr) : CFRt × List FfiEvent :=
  ({ s with refCount := fun x => if x = a then s.refCount x + 1 else s.refCount x },
   [FfiEvent.retainEv a])

/-- Foreign `CFRelease`: decrements the refcount of the given address. -/
def cfRelease (s : CFRt) (a : Addr) : CFRt × List FfiEvent :=
  ({ s with refCount := fun x => if x = a then s.refCount x - 1 else s.refCount x },
   [FfiEvent.releaseEv a])

/-- Foreign `CFGetTypeID`: reads the runtime type tag of an address. -/
def cfGetTypeID (s : CFRt) (a : Addr) : TypeId := s.typeOf a

/-- `cf::Type` (src/cidre/src/cf/runtime.rs line 9):
`pub struct Type(NonNull<c_void>)` — an opaque handle wrapping one non-null
foreign address. (`Type` is a reserved word in Lean, hence `CFType`.) -/
structure CFType where
  addr : Addr
  nonNull : 0 < addr

/-- Modelled from the spec: `arc::R<T>` (the file src/cidre/src/arc.rs is not
in the repository slice). An Owned Reference holds exactly one retain count
for one non-null foreign address. -/
structure RRef where
  addr : Addr
  nonNull : 0 < addr

/-- `Type::retain` (runtime.rs line 13): calls `CFRetain(cf)` and transmutes
the returned reference into an `arc::R`, so the owned reference carries the
same address that was retained. -/
def CFType.retain (s : CFRt) (cf : CFType) : (CFRt × List FfiEvent) × RRef :=
  (cfRetain s cf.addr, ⟨cf.addr, cf.nonNull⟩)

/-- `Type::release` (runtime.rs line 18): calls `CFRelease(cf)`. -/
def CFType.release (s : CFRt) (cf : CFType) : CFRt × List FfiEvent :=
  cfRelease s cf.addr

/-- `Type::get_type_id` (runtime.rs line 23): calls `CFGetTypeID(self)`. -/
def CFType.get_type_id (s : CFRt) (cf : CFType) : TypeId :=
  cfGetTypeID s cf.addr

/-- `Type::is_tagged_ptr` (runtime.rs line 39, absent on watchOS):
`((self as *const Self as usize) >> 63) == 1`, a pure read of the handle's
own 64-bit address. -/
def CFType.is_tagged_ptr (cf : CFType) : Bool :=
  (cf.addr >>> 63) == 1

/-- `impl arc::Retain for Type` (runtime.rs line 46): `retained` forwards to
`Type::retain(self)`. -/
def CFType.retained (s : CFRt) (cf : CFType) : (CFRt × List FfiEvent) × RRef :=
  CFType.retain s cf

/-- Modelled from the spec: destruction of an `arc::R` (arc.rs is not in the
repository slice) — "on destruction, invokes exactly one Release", which for
a `cf::Type`-based value is the foreign `CFRelease` on its address. -/
def RRef.drop (s : CFRt) (r : RRef) : CFRt × List FfiEvent :=
  cfRelease s r.addr

/-- `Type::try_as_number` (runtime.rs line 115): when
`self.get_type_id() == cf::Number::type_id()` the handle itself is
reinterpreted as the narrowed view, otherwise `None`. -/
def CFType.try_as_number (s : CFRt) (cf : CFType) : Option CFType :=
  if CFType.get_type_id s cf = s.numberTypeId then some cf else none

/-- `Type::try_as_string` (runtime.rs line 123): when
`self.get_type_id() == cf::String::type_id()` the handle itself is
reinterpreted as the narrowed view, otherwise `None`. -/
def CFType.try_as_string (s : CFRt) (cf : CFType) : Option CFType :=
  if CFType.get_type_id s cf = s.stringTypeId then some cf else none

/-! The code generated by one `define_cf_type!` invocation with base type
`cf::Type` (runtime.rs lines 58–112): a transparent wrapper, deref to the
base, and Retain/Release forwarding. -/

/-- The generated `pub struct NewType(BaseType)` with base `cf::Type`;
`repr(transparent)` makes the wrapper's address the base handle's address. -/
structure SubType where
  base : CFType

/-- The generated `Deref` impl (runtime.rs line 73): `&self.0`. -/
def SubType.deref (s : SubType) : CFType := s.base

/-- The generated `arc::Release` impl (runtime.rs line 87):
`unsafe fn release(&mut self) { self.0.release() }`. -/
def SubType.release (st : CFRt) (s : SubType) : CFRt × List FfiEvent :=
  CFType.release st s.base

/-- The generated inherent `retained` method (runtime.rs line 101):
`unsafe { crate::cf::Type::retain(self) }`, where `self` coerces through the
transparent wrapper to the base `cf::Type` at the same address. -/
def SubType.retained (st : CFRt) (s : SubType) : (CFRt × List FfiEvent) × RRef :=
  CFType.retain st (SubType.deref s)

/-! The os status/result machinery. The file src/cidre/src/os.rs is not in
the repository slice, so it is modelled from the spec's status-code
convention and creation-call description. -/

/-- Modelled from the spec: `os::Status::result` (os.rs is not in the
repository slice) — "a signed integer where zero means success and any
nonzero value is an opaque foreign error code", surfaced as a typed result
carrying the foreign status code. -/
def statusResult (s : Status) : Except Status Unit :=
  if s = 0 then Except.ok () else Except.error s

/-- Result of running a fallible creation wrapper. `ub` marks the undefined
behavior of unwrapping an empty output parameter (`unwrap_unchecked`), which
the foreign creation contract is meant to rule out. -/
inductive URes (α : Type) where
  | ok (val : α)
  | err (e : Status)
  | ub
deriving DecidableEq, Repr

/-- Modelled from the spec: `os::result_unchecked` (os.rs is not in the
repository slice) — runs the creation call against an output parameter
initialized to empty; on a success status the output parameter is unwrapped
without a check, on a failure status the status is propagated and the output
parameter is dropped untouched. -/
def result_unchecked (f : Option RRef → Option RRef × Except Status Unit) : URes RRef :=
  match f none with
  | (outParam, Except.ok _) =>
    match outParam with
    | some r => URes.ok r
    | none => URes.ub
  | (_, Except.error e) => URes.err e

/-- Observable behavior of one foreign `CMSampleBufferCreate` call
(sample_buffer.rs line 634): the status it returns and the value the output
parameter `sample_buffer_out` holds after the call, given that it started
out empty. -/
structure CreateBehavior where
  status : Status
  outAfter : Option RRef

/-- `SampleBuf::create_in` (sample_buffer.rs line 166): forwards to
`CMSampleBufferCreate` writing through `sample_buffer_out`, then applies
`.result()` to the returned status. -/
def SampleBuf.create_in (fc : CreateBehavior) (_outParam : Option RRef) :
    Option RRef × Except Status Unit :=
  (fc.outAfter, statusResult fc.status)

/-- `SampleBuf::new` (sample_buffer.rs line 139):
`os::result_unchecked(|res| Self::create_in(..., res))`. -/
def SampleBuf.new (fc : CreateBehavior) : URes RRef :=
  result_unchecked (SampleBuf.create_in fc)

/-- The releases that owned-reference bookkeeping will perform for the result
of a creation call: exactly the drop of the owned reference in the success
case, nothing in the failure case (no owned reference was constructed). -/
def releasesOnDrop (s : CFRt) : URes RRef → List FfiEvent
  | URes.ok r => (RRef.drop s r).2
  | URes.err _ => []
  | URes.ub => []

/-! Data readiness of a sample buffer. The readiness state machine lives in
the foreign CoreMedia runtime, so it is modelled from the spec's creation
scenario and the documented contracts of the wrapped calls. -/

/-- Modelled from the spec: the foreign readiness state of one
`CMSampleBuffer` — a buffer "can describe samples it doesn't yet contain"
and carries a data-readiness flag that can be tested, set and forced. -/
structure SampleBufState where
  dataReady : Bool
deriving DecidableEq, Repr

/-- Modelled from the spec: the buffer produced by a successful creation call
records the `data_ready` argument as its readiness flag (the documented
example creates with `true` and asserts `data_is_ready`). -/
def createdState (data_ready : Bool) : SampleBufState :=
  { dataReady := data_ready }

/-- Foreign `CMSampleBufferDataIsReady`: reads the readiness flag. -/
def cmDataIsReady (b : SampleBufState) : Bool := b.dataReady

/-- Foreign `CMSampleBufferSetDataReady`: marks the buffer ready. -/
def cmSetDataReady (b : SampleBufState) : SampleBufState :=
  { b with dataReady := true }

/-- Foreign `CMSampleBufferMakeDataReady`: runs the client's
make-data-ready callback; on success (status zero) the buffer's data is
ready, on failure the buffer is left as it was. The callback's status is the
call's behavior parameter. -/
def cmMakeDataReady (cbStatus : Status) (b : SampleBufState) : Status × SampleBufState :=
  if cbStatus = 0 then (cbStatus, { b with dataReady := true }) else (cbStatus, b)

/-- `SampleBuf::data_is_ready` (sample_buffer.rs line 115): forwards to
`CMSampleBufferDataIsReady(self)`. -/
def SampleBuf.data_is_ready (b : SampleBufState) : Bool := cmDataIsReady b

/-- `SampleBuf::set_data_ready` (sample_buffer.rs line 121): forwards to
`CMSampleBufferSetDataReady(self)`. -/
def SampleBuf.set_data_ready (b : SampleBufState) : SampleBufState := cmSetDataReady b

/-- `SampleBuf::make_data_ready` (sample_buffer.rs line 433):
`CMSampleBufferMakeDataReady(self).result()`. -/
def SampleBuf.make_data_ready (cbStatus : Status) (b : SampleBufState) :
    Except Status Unit × SampleBufState :=
  (statusResult (cmMakeDataReady cbStatus b).1, (cmMakeDataReady cbStatus b).2)

/-! The option-flag bit-set facility generated by `define_opts!`
(src/cidre/src/lib.rs lines 219–336), instantiated as in
`define_opts!(pub Flags(u32))`: the base integer is a u32, modelled as a
natural number kept below 2^32. -/

/-- The generated `pub struct NewType(pub BaseType)` with base `u32`. -/
structure Opts where
  val : Nat
deriving DecidableEq, Repr

/-- The generated `BitAnd` impl (lib.rs line 276): `Self(self.0 & rhs.0)`. -/
def Opts.bitand (a b : Opts) : Opts := ⟨a.val &&& b.val⟩

/-- The generated `BitOr` impl (lib.rs line 285): `Self(self.0 | rhs.0)`. -/
def Opts.bitor (a b : Opts) : Opts := ⟨a.val ||| b.val⟩

/-- The generated `Not` impl (lib.rs line 317): `Self(!self.0)`; for a u32,
bitwise complement is xor with the all-ones mask `2^32 - 1`. -/
def Opts.bitnot (a : Opts) : Opts := ⟨a.val ^^^ (2 ^ 32 - 1)⟩

/-- The generated `is_empty` (lib.rs line 232): `self.0 == 0`. -/
def Opts.is_empty (a : Opts) : Bool := a.val == 0

/-- The generated `any` (lib.rs line 236): `self.0 & mask.0 != 0`. -/
def Opts.any (a mask : Opts) : Bool := (a.val &&& mask.val) != 0

/-- The generated `contains` (lib.rs line 241): `*self & val == val`
(derived `PartialEq` on the transparent wrapper is equality of the wrapped
integers). -/
def Opts.contains (a v : Opts) : Bool := Opts.bitand a v == v

/-- The generated `insert` (lib.rs line 246): `*self |= val`. -/
def Opts.insert (a v : Opts) : Opts := Opts.bitor a v

/-- The generated `remove` (lib.rs line 251): `*self &= !val`. -/
def Opts.remove (a v : Opts) : Opts := Opts.bitand a (Opts.bitnot v)

/-- The generated `set` (lib.rs line 256): insert when `on`, remove
otherwise. -/
def Opts.set (a v : Opts) (onFlag : Bool) : Opts :=
  if onFlag then Opts.insert a v else Opts.remove a v

/-! The key-frame query on a sample buffer's attachments. -/

/-- A sample attachment dictionary
(`cf::DictionaryOf<cf::String, cf::Plist>`): an association from key
addresses (the interned `cf::String` constants) to attachment value
addresses; `get` compares against pointer-identical key constants. -/
abbrev AttachDict := List (Addr × Addr)

/-- The attachment environment `is_key_frame` reads: the result of
`attaches(false)` (the optional array of per-sample attachment
dictionaries), the address of the `kCMSampleAttachmentKey_NotSync` key
constant, and the address of the `cf::Boolean::value_false()` constant
(`kCFBooleanFalse`). -/
structure AttachEnv where
  attachesArr : Option (List AttachDict)
  notSyncKey : Addr
  falseAddr : Addr

/-- `SampleBuf::is_key_frame` (sample_buffer.rs line 383): when
`attaches(false)` is absent or empty the sample is a key frame; otherwise
the first sample's dictionary is consulted for the not-sync key, absence
meaning key frame, and a present value meaning key frame exactly when it is
pointer-identical to `cf::Boolean::value_false()`. -/
def SampleBuf.is_key_frame (env : AttachEnv) : Bool :=
  match env.attachesArr with
  | some arr =>
    match arr with
    | [] => true
    | dict :: _ =>
      match dict.lookup env.notSyncKey with
      | none => true
      | some notSync => notSync == env.falseAddr
  | none => true

/-! The audio stream packet descriptions accessor. -/

/-- Observable behavior of one foreign
`CMSampleBufferGetAudioStreamPacketDescriptionsPtr` call
(sample_buffer.rs line 702): the status it returns, the size it writes
through `packet_descriptions_size_out`, and the descriptions address it
would hand out through a descriptions out-pointer had the caller passed
one. -/
structure PacketDescsBehavior where
  status : Status
  sizeOut : Nat
  descsAddr : Addr

/-- `SampleBuf::audio_stream_packet_descs` (sample_buffer.rs line 479):
`ptr` is a local null pointer passed to the foreign call by value (only
`size` is passed by reference), then the status is checked and `ptr` is
tested for null; a null `ptr` yields `Ok(None)`, otherwise a slice of
`size` entries at `ptr` is returned. -/
def SampleBuf.audio_stream_packet_descs (f : PacketDescsBehavior) :
    Except Status (Option (Addr × Nat)) :=
  let ptr : Addr := 0
  match statusResult f.status with
  | Except.error e => Except.error e
  | Except.ok _ =>
    if ptr = 0 then Except.ok none
    else Except.ok (some (ptr, f.sizeOut))

/-! Theorems. -/

/-- C1: `try_as_number` returns a populated view exactly when the handle's
runtime tag equals `cf::Number::type_id()`, `try_as_string` exactly when it
equals `cf::String::type_id()`; in every other case each returns `None`, so
a string-tagged handle narrows to number as `None` and vice versa, and a
populated view is the handle itself. -/
theorem try_as_narrowing_sound (s : CFRt) (h : CFType)
    (hne : s.numberTypeId ≠ s.stringTypeId) :
    ((CFType.try_as_number s h).isSome = true ↔ CFType.get_type_id s h = s.numberTypeId)
  ∧ ((CFType.try_as_string s h).isSome = true ↔ CFType.get_type_id s h = s.stringTypeId)
  ∧ (CFType.get_type_id s h = s.stringTypeId → CFType.try_as_number s h = none)
  ∧ (CFType.get_type_id s h = s.numberTypeId → CFType.try_as_string s h = none)
  ∧ (∀ r, CFType.try_as_number s h = some r → r = h)
  ∧ (∀ r, CFType.try_as_string s h = some r → r = h) := by
  unfold CFType.try_as_number CFType.try_as_string
  split_ifs with h1 h2 <;> simp_all

/-- A runtime where address 10 carries the number tag and every other
address the string tag; used to exercise narrowing in both directions. -/
def narrowRt : CFRt where
  refCount := fun _ => 1
  typeOf := fun a => if a = 10 then 1 else 2
  numberTypeId := 1
  stringTypeId := 2

/-- A handle whose tag in `narrowRt` is the number tag. -/
def numHandle : CFType := ⟨10, by decide⟩

/-- A handle whose tag in `narrowRt` is the string tag. -/
def strHandle : CFType := ⟨20, by decide⟩

/-- Witness for C1: in `narrowRt`, the number-tagged handle narrows to
number and not to string, and the string-tagged handle narrows to string
and not to number. -/
theorem try_as_narrowing_sound_witness :
    narrowRt.numberTypeId ≠ narrowRt.stringTypeId
  ∧ (CFType.try_as_number narrowRt numHandle).isSome = true
  ∧ CFType.try_as_string narrowRt numHandle = none
  ∧ (CFType.try_as_string narrowRt strHandle).isSome = true
  ∧ CFType.try_as_number narrowRt strHandle = none :=
  ⟨by decide,
   (try_as_narrowing_sound narrowRt numHandle (by decide)).1.mpr (by decide),
   (try_as_narrowing_sound narrowRt numHandle (by decide)).2.2.2.1 (by decide),
   (try_as_narrowing_sound narrowRt strHandle (by decide)).2.1.mpr (by decide),
   (try_as_narrowing_sound narrowRt strHandle (by decide)).2.2.1 (by decide)⟩

/-- C2: ending the lifetime of an owned reference `r` performs exactly one
foreign release of `r`'s handle: the trace of the destruction step is one
`CFRelease` on `r.addr` and nothing else. -/
theorem owned_ref_exactly_one_release (s : CFRt) (r : RRef) :
    (RRef.drop s r).2 = [FfiEvent.releaseEv r.addr]
  ∧ List.count (FfiEvent.releaseEv r.addr) (RRef.drop s r).2 = 1 := by
  constructor
  · rfl
  · simp [RRef.drop, cfRelease]

/-- C5: the code generated by `define_cf_type!` forwards to the base
`cf::Type` implementations: its `release` is exactly the base release of the
dereferenced value (one foreign release, nothing else), its `retained` is
exactly `cf::Type::retain` at the same address, and deref yields the wrapped
base value unchanged. -/
theorem define_cf_type_forwards (st : CFRt) (s : SubType) :
    SubType.release st s = CFType.release st (SubType.deref s)
  ∧ (SubType.release st s).2 = [FfiEvent.releaseEv s.base.addr]
  ∧ SubType.retained st s = CFType.retained st (SubType.deref s)
  ∧ ((SubType.retained st s).2).addr = s.base.addr
  ∧ SubType.deref s = s.base :=
  ⟨rfl, rfl, rfl, rfl, rfl⟩

/-- C9: `is_key_frame` is true exactly when the attachments array is absent,
or empty, or the first sample's dictionary lacks the not-sync key, or the
stored not-sync value is pointer-identical to `cf::Boolean::value_false()`. -/
theorem is_key_frame_characterization (env : AttachEnv) :
    SampleBuf.is_key_frame env = true ↔
      (env.attachesArr = none ∨ env.attachesArr = some [] ∨
       ∃ dict rest, env.attachesArr = some (dict :: rest) ∧
         (List.lookup env.notSyncKey dict = none ∨
          List.lookup env.notSyncKey dict = some env.falseAddr)) := by
  unfold SampleBuf.is_key_frame
  rcases env with ⟨arr, k, fa⟩
  dsimp only
  rcases arr with _ | (_ | ⟨d, rest⟩)
  · simp
  · simp
  · rcases hd : List.lookup k d with _ | v
    · simp only [hd]
      constructor
      · intro _
        exact Or.inr (Or.inr ⟨d, rest, rfl, Or.inl hd⟩)
      · intro _
        trivial
    · simp only [hd, beq_iff_eq]
      constructor
      · intro hv
        exact Or.inr (Or.inr ⟨d, rest, rfl, Or.inr (by rw [hd, hv])⟩)
      · rintro (hc | hc | ⟨dict, rest2, he, hl⟩)
        · exact absurd hc (by simp)
        · exact absurd hc (by simp)
        · obtain ⟨hde, -⟩ : d = dict ∧ rest = rest2 := by simpa using he
          subst hde
          rcases hl with hl | hl
          · rw [hd] at hl
            cases hl
          · rw [hd] at hl
            simpa using hl

/-- C10: whenever the foreign packet-descriptions call reports success the
accessor returns `Ok(None)`, and the populated branch is unreachable on
every input, because the tested pointer is a local null passed to the
foreign call by value. -/
theorem audio_packet_descs_always_none (f : PacketDescsBehavior) :
    (SampleBuf.audio_stream_packet_descs f = Except.ok none ↔ f.status = 0)
  ∧ ∀ p, SampleBuf.audio_stream_packet_descs f ≠ Except.ok (some p) := by
  unfold SampleBuf.audio_stream_packet_descs statusResult
  by_cases h : f.status = 0 <;> simp [h]

/-- C3: retain followed by release is a net no-op on the foreign refcount:
retaining a live handle increments its count by exactly one, and dropping
the returned owned reference brings the count back to its original value. -/
theorem retain_release_net_noop (s : CFRt) (h : CFType)
    (_hl : 0 < s.refCount h.addr) :
    ((CFType.retained s h).1.1).refCount h.addr = s.refCount h.addr + 1
  ∧ ((RRef.drop ((CFType.retained s h).1.1) (CFType.retained s h).2).1).refCount h.addr
      = s.refCount h.addr := by
  unfold CFType.retained CFType.retain cfRetain RRef.drop cfRelease
  simp

/-- A runtime with every address live at refcount 2. -/
def liveRt : CFRt where
  refCount := fun _ => 2
  typeOf := fun _ => 0
  numberTypeId := 1
  stringTypeId := 2

/-- A live handle at address 5 in `liveRt`. -/
def handle5 : CFType := ⟨5, by decide⟩

/-- Witness for C3 at a live handle of refcount 2. -/
theorem retain_release_net_noop_witness :
    0 < liveRt.refCount handle5.addr
  ∧ (((CFType.retained liveRt handle5).1.1).refCount handle5.addr
       = liveRt.refCount handle5.addr + 1
     ∧ ((RRef.drop ((CFType.retained liveRt handle5).1.1)
           (CFType.retained liveRt handle5).2).1).refCount handle5.addr
         = liveRt.refCount handle5.addr) :=
  ⟨by decide, retain_release_net_noop liveRt handle5 (by decide)⟩

/-- C4: under the creation-call contract (success fills the output
parameter, failure leaves it empty), `SampleBuf::new` returns an owned
reference exactly when the foreign status is zero; on a nonzero status it
returns that status as the error, and no owned reference exists, so no
release is ever attempted for the failed call. -/
theorem creation_failure_no_dangling (fc : CreateBehavior)
    (hok : fc.status = 0 → fc.outAfter.isSome = true)
    (hfail : fc.status ≠ 0 → fc.outAfter = none) :
    ((∃ r, SampleBuf.new fc = URes.ok r) ↔ fc.status = 0)
  ∧ (fc.status ≠ 0 → SampleBuf.new fc = URes.err fc.status
       ∧ ∀ s, releasesOnDrop s (SampleBuf.new fc) = []) := by
  unfold SampleBuf.new result_unchecked SampleBuf.create_in statusResult
  by_cases h : fc.status = 0
  · rcases ho : fc.outAfter with _ | r
    · exact absurd (hok h) (by simp [ho])
    · simp [h, ho]
  · simp [h, hfail h, releasesOnDrop]

/-- The observable behavior of a failed creation call: status
`kCMSampleBufferError_RequiredParameterMissing`, output parameter empty. -/
def failedCreate : CreateBehavior where
  status := -12731
  outAfter := none

/-- Witness for C4 at a failed creation call. -/
theorem creation_failure_no_dangling_witness :
    (failedCreate.status = 0 → failedCreate.outAfter.isSome = true)
  ∧ (failedCreate.status ≠ 0 → failedCreate.outAfter = none)
  ∧ (((∃ r, SampleBuf.new failedCreate = URes.ok r) ↔ failedCreate.status = 0)
     ∧ (failedCreate.status ≠ 0 → SampleBuf.new failedCreate = URes.err failedCreate.status
          ∧ ∀ s, releasesOnDrop s (SampleBuf.new failedCreate) = [])) :=
  ⟨fun h => absurd h (by decide), fun _ => rfl,
   creation_failure_no_dangling failedCreate (fun h => absurd h (by decide)) (fun _ => rfl)⟩

/-- C6: a buffer created with data-ready `false` reports not ready; after
`set_data_ready`, or after a successful `make_data_ready`, it reports
ready; a buffer created with data-ready `true` reports ready immediately. -/
theorem data_readiness_scenario (cbStatus : Status)
    (hok : (SampleBuf.make_data_ready cbStatus (createdState false)).1 = Except.ok ()) :
    SampleBuf.data_is_ready (createdState false) = false
  ∧ SampleBuf.data_is_ready (SampleBuf.set_data_ready (createdState false)) = true
  ∧ SampleBuf.data_is_ready (SampleBuf.make_data_ready cbStatus (createdState false)).2 = true
  ∧ SampleBuf.data_is_ready (createdState true) = true := by
  refine ⟨rfl, rfl, ?_, rfl⟩
  unfold SampleBuf.make_data_ready cmMakeDataReady statusResult at hok ⊢
  by_cases h : cbStatus = 0 <;> simp [h] at hok ⊢
  simp [SampleBuf.data_is_ready, cmDataIsReady]

/-- Witness for C6: the make-ready callback succeeds with status zero. -/
theorem data_readiness_scenario_witness :
    (SampleBuf.make_data_ready 0 (createdState false)).1 = Except.ok ()
  ∧ (SampleBuf.data_is_ready (createdState false) = false
     ∧ SampleBuf.data_is_ready (SampleBuf.set_data_ready (createdState false)) = true
     ∧ SampleBuf.data_is_ready (SampleBuf.make_data_ready 0 (createdState false)).2 = true
     ∧ SampleBuf.data_is_ready (createdState true) = true) :=
  ⟨rfl, data_readiness_scenario 0 rfl⟩

/-- C7: on a 64-bit target, `is_tagged_ptr` returns true exactly when bit 63
of the handle's address is set, and the address is non-null by
construction. -/
theorem is_tagged_ptr_msb (h : CFType) (hb : h.addr < 2 ^ 64) :
    (CFType.is_tagged_ptr h = true ↔ Nat.testBit h.addr 63 = true) ∧ 0 < h.addr := by
  refine ⟨?_, h.nonNull⟩
  unfold CFType.is_tagged_ptr
  have h64 : (2 : Nat) ^ 64 = 2 * 2 ^ 63 := by norm_num
  have hq : h.addr / 2 ^ 63 < 2 := Nat.div_lt_of_lt_mul (h64 ▸ hb)
  rw [Nat.testBit_to_div_mod]
  simp only [beq_iff_eq, decide_eq_true_eq, Nat.shiftRight_eq_div_pow]
  have hgen : ∀ q : Nat, q < 2 → (q = 1 ↔ q % 2 = 1) := by omega
  exact hgen _ hq

/-- A handle whose address has bit 63 set. -/
def taggedHandle : CFType := ⟨2 ^ 63, by positivity⟩

/-- Witness for C7 at the address `2 ^ 63`. -/
theorem is_tagged_ptr_msb_witness :
    taggedHandle.addr < 2 ^ 64
  ∧ ((CFType.is_tagged_ptr taggedHandle = true ↔ Nat.testBit taggedHandle.addr 63 = true)
     ∧ 0 < taggedHandle.addr) :=
  ⟨by norm_num [taggedHandle], is_tagged_ptr_msb taggedHandle (by norm_num [taggedHandle])⟩

/-- Absorption for or-then-and at the bit level. -/
theorem nat_lor_land_self (a v : Nat) : (a ||| v) &&& v = v := by
  apply Nat.eq_of_testBit_eq
  intro i
  simp only [Nat.testBit_land, Nat.testBit_lor]
  cases a.testBit i <;> cases v.testBit i <;> rfl

/-- Clearing a u32 mask's bits makes the mask disjoint from the result. -/
theorem nat_land_mask_compl_land_self (a v : Nat) (hv : v < 2 ^ 32) :
    a &&& (v ^^^ (2 ^ 32 - 1)) &&& v = 0 := by
  apply Nat.eq_of_testBit_eq
  intro i
  simp only [Nat.testBit_land, Nat.testBit_xor, Nat.zero_testBit]
  by_cases hi : i < 32
  · have hm : Nat.testBit (2 ^ 32 - 1) i = true := by
      rw [Nat.testBit_two_pow_sub_one]
      simp [hi]
    rw [hm]
    cases a.testBit i <;> cases v.testBit i <;> rfl
  · have hv32 : Nat.testBit v i = false := by
      apply Nat.testBit_lt_two_pow
      calc v < 2 ^ 32 := hv
        _ ≤ 2 ^ i := Nat.pow_le_pow_right (by norm_num) (Nat.le_of_not_lt hi)
    rw [hv32]
    simp

/-- Equality test on the transparent wrapper is equality of the wrapped
integers. -/
theorem opts_beq_iff (x y : Opts) : (x == y) = true ↔ x.val = y.val := by
  rcases x with ⟨xv⟩
  rcases y with ⟨yv⟩
  simp

/-- C8: for the bit-set type generated by `define_opts!` over a u32, insert
makes `contains` hold; remove makes `any` false, and `contains` after
remove holds only for the all-zero value; `set` with true and false agree
with insert and remove; and `is_empty` holds exactly for the zero value. -/
theorem opts_bitset_algebra (a v : Opts) (_ha : a.val < 2 ^ 32) (hv : v.val < 2 ^ 32) :
    Opts.contains (Opts.insert a v) v = true
  ∧ Opts.any (Opts.remove a v) v = false
  ∧ (Opts.contains (Opts.remove a v) v = true ↔ v.val = 0)
  ∧ Opts.set a v true = Opts.insert a v
  ∧ Opts.set a v false = Opts.remove a v
  ∧ (Opts.is_empty a = true ↔ a.val = 0) := by
  have hrm : (Opts.remove a v).val &&& v.val = 0 :=
    nat_land_mask_compl_land_self a.val v.val hv
  refine ⟨?_, ?_, ?_, rfl, rfl, ?_⟩
  · rw [Opts.contains, opts_beq_iff]
    exact nat_lor_land_self a.val v.val
  · rw [Opts.any]
    rw [show (Opts.remove a v).val &&& v.val = 0 from hrm]
    rfl
  · rw [Opts.contains, opts_beq_iff]
    rw [show (Opts.bitand (Opts.remove a v) v).val = 0 from hrm]
    exact eq_comm
  · simp [Opts.is_empty]

/-- The flags value 5 (bits 0 and 2). -/
def optsA : Opts := ⟨5⟩

/-- The flags value 3 (bits 0 and 1). -/
def optsV : Opts := ⟨3⟩

/-- Witness for C8 at the flag values 5 and 3. -/
theorem opts_bitset_algebra_witness :
    optsA.val < 2 ^ 32
  ∧ optsV.val < 2 ^ 32
  ∧ (Opts.contains (Opts.insert optsA optsV) optsV = true
     ∧ Opts.any (Opts.remove optsA optsV) optsV = false
     ∧ (Opts.contains (Opts.remove optsA optsV) optsV = true ↔ optsV.val = 0)
     ∧ Opts.set optsA optsV true = Opts.insert optsA optsV
     ∧ Opts.set optsA optsV false = Opts.remove optsA optsV
     ∧ (Opts.is_empty optsA = true ↔ optsA.val = 0)) :=
  ⟨by norm_num [optsA], by norm_num [optsV],
   opts_bitset_algebra optsA optsV (by norm_num [optsA]) (by norm_num [optsV])⟩

end Cidre
